import Mathlib

/-!
Shallow embedding, in Lean 4, of the three applications in this repository:

* `task-api/main.py` — a FastAPI CRUD service persisting a flat list of
  tasks to a JSON file, with a process-wide in-memory cache;
* `family_activity_planner_app.py` and `pm_career_coach_app.py` — two
  Streamlit apps sharing a three-provider LLM router, a layered secret
  resolver, and deterministic prompt builders.

Pure Python functions become Lean functions; the file system and the
provider network calls become explicit state / oracle parameters.  All
definitions are executable.
-/

namespace TaskApi

/-- Task record as stored in `tasks.json` and in the in-memory list:
`{"id": int, "text": str}` (fields of the pydantic `Task` model).
Python ints are unbounded, so `id` is `Int`. -/
structure Task where
  id : Int
  text : String
deriving DecidableEq, Repr

/-- Abstraction of the backing file `tasks.json` used for the
collection-semantics claims: the file may be missing
(`TASKS_FILE.exists()` false), unreadable through one of the errors the
loader catches (`OSError` on `read_text`, `json.JSONDecodeError` on
`json.loads`), valid JSON that is not a list (`isinstance(data, list)`
false), or a JSON array of task records.  File contents on which the
Python loader raises an exception it does not catch (bytes that are
not valid UTF-8, JSON nested beyond the recursion limit) are outside
this abstraction; they are modelled exactly by `RawTasksFile` and
`load_tasks_from_file_raw` below. -/
inductive TasksFile where
  | missing
  | unreadable
  | nonArray
  | array (ts : List Task)
deriving DecidableEq, Repr

/-- Embedding of `TASKS_FILE.exists()`. -/
def fileExists : TasksFile → Bool
  | .missing => false
  | _ => true

/-- Embedding of `load_tasks_from_file` (main.py lines 146–154) over
the `TasksFile` abstraction: returns the parsed array when the file
holds one and the empty list in every other represented case (the
`except (json.JSONDecodeError, OSError)` branches).  This function is
total only over the abstraction; the loader's uncaught error paths are
captured by `load_tasks_from_file_raw`. -/
def load_tasks_from_file : TasksFile → List Task
  | .array ts => ts
  | _ => []

/-- Full state space of the backing file, including the contents on
which the Python loader raises: `read_text(encoding="utf-8")` raises
`UnicodeDecodeError` (a `ValueError`, caught by neither
`json.JSONDecodeError` nor `OSError`) when the bytes are not valid
UTF-8, and `json.loads` raises `RecursionError` when the JSON nesting
exceeds the interpreter's recursion limit. -/
inductive RawTasksFile where
  | missing
  | osError
  | invalidUtf8
  | invalidJson
  | tooDeep
  | nonArray
  | array (ts : List Task)
deriving DecidableEq, Repr

/-- Embedding of `TASKS_FILE.exists()` over the full file states. -/
def rawFileExists : RawTasksFile → Bool
  | .missing => false
  | _ => true

/-- Embedding of `load_tasks_from_file` (main.py lines 146–154) over
the full file states, with the raised exception made explicit: the
`except` clause at line 153 names only `json.JSONDecodeError` and
`OSError`, so `UnicodeDecodeError` from `read_text` and
`RecursionError` from `json.loads` propagate to the caller. -/
def load_tasks_from_file_raw : RawTasksFile → Except String (List Task)
  | .missing => Except.ok []
  | .osError => Except.ok []
  | .invalidUtf8 => Except.error "UnicodeDecodeError"
  | .invalidJson => Except.ok []
  | .tooDeep => Except.error "RecursionError"
  | .nonArray => Except.ok []
  | .array ts => Except.ok ts

/-- `GET /tasks` on a process with the given cache over the full file
states: `_ensure_tasks_loaded` runs the loader when the cache is empty
and the file exists, and an exception the loader raises propagates out
of the handler unhandled. -/
def list_tasks_raw (cache : List Task) (f : RawTasksFile) :
    Except String (List Task) :=
  if cache.isEmpty && rawFileExists f then
    match load_tasks_from_file_raw f with
    | Except.ok ts => Except.ok ts
    | Except.error e => Except.error e
  else
    Except.ok cache

/-- Process state of the task API: the module-global in-memory list
`tasks`, the backing file, and an instrumentation counter recording how
many times the backing file has been read (a read happens exactly when
`load_tasks_from_file` is invoked on an existing file; the counter
exists only to make the temporal claim about re-reads statable). -/
structure ServerState where
  tasks : List Task
  file : TasksFile
  reads : Nat
deriving DecidableEq, Repr

/-- Embedding of `save_tasks_to_file` (lines 157–159): overwrites the
backing file with the full current collection.  Write errors are out of
scope (spec §7 leaves them unhandled). -/
def save_tasks_to_file (s : ServerState) : ServerState :=
  { s with file := .array s.tasks }

/-- Embedding of `_ensure_tasks_loaded` (lines 162–166):
`if not tasks and TASKS_FILE.exists(): tasks = load_tasks_from_file()`.
The guard is re-evaluated on every call; a file read is performed
whenever it fires. -/
def ensureTasksLoaded (s : ServerState) : ServerState :=
  if s.tasks.isEmpty && fileExists s.file then
    { s with tasks := load_tasks_from_file s.file, reads := s.reads + 1 }
  else s

/-- Python `max(ids, default=0)`: the maximum of the list when nonempty,
`0` when empty (main.py line 192 computes `max((t["id"] for t in tasks),
default=0)`). -/
def maxDefault0 : List Int → Int
  | [] => 0
  | x :: xs => xs.foldl max x

/-- Embedding of the `POST /tasks` handler `add_task` (lines 188–196):
ensure loaded, assign `max(existing ids, default 0) + 1`, append,
persist, return the new record. -/
def add_task (s : ServerState) (text : String) : ServerState × Task :=
  let s := ensureTasksLoaded s
  let task_id := maxDefault0 (s.tasks.map Task.id) + 1
  let new_task : Task := { id := task_id, text := text }
  let s := { s with tasks := s.tasks ++ [new_task] }
  let s := save_tasks_to_file s
  (s, new_task)

/-- Embedding of the `GET /tasks` handler `list_tasks` (lines 199–203). -/
def list_tasks (s : ServerState) : ServerState × List Task :=
  let s := ensureTasksLoaded s
  (s, s.tasks)

/-- Embedding of the `DELETE /tasks` handler `delete_tasks` (lines
206–213): ensure loaded, `ids = set(body.ids)`, keep the tasks whose id
is not in the set, persist, return `{"deleted": len(ids)}`.  The Python
set is modelled by `List.dedup`: membership agrees with the request
list, and `len(set(xs))` is `xs.dedup.length`. -/
def delete_tasks (s : ServerState) (body_ids : List Int) : ServerState × Nat :=
  let s := ensureTasksLoaded s
  let ids := body_ids.dedup
  let s := { s with tasks := s.tasks.filter (fun t => !ids.contains t.id) }
  let s := save_tasks_to_file s
  (s, ids.length)

/-- One client request against the service. -/
inductive Op where
  | create (text : String)
  | listAll
  | delete (ids : List Int)
deriving DecidableEq, Repr

/-- Run a sequence of requests from a given process state, collecting (in
order) the ids that `add_task` assigns along the way. -/
def runOps (s : ServerState) : List Op → ServerState × List Int
  | [] => (s, [])
  | Op.create t :: rest =>
      let r := add_task s t
      let out := runOps r.1 rest
      (out.1, r.2.id :: out.2)
  | Op.listAll :: rest =>
      runOps (list_tasks s).1 rest
  | Op.delete ids :: rest =>
      runOps (delete_tasks s ids).1 rest

/-! Helper lemmas about the task store. -/

theorem foldl_max_le_init (a : Int) (l : List Int) : a ≤ l.foldl max a := by
  induction l generalizing a with
  | nil => exact le_refl a
  | cons x xs ih =>
      calc a ≤ max a x := le_max_left a x
        _ ≤ xs.foldl max (max a x) := ih (max a x)
        _ = (x :: xs).foldl max a := rfl

theorem foldl_max_le_of_mem {x : Int} {l : List Int} (a : Int) (h : x ∈ l) :
    x ≤ l.foldl max a := by
  induction l generalizing a with
  | nil => cases h
  | cons y ys ih =>
      rcases List.mem_cons.mp h with rfl | hy
      · calc x ≤ max a x := le_max_right a x
          _ ≤ ys.foldl max (max a x) := foldl_max_le_init _ _
      · exact ih (max a y) hy

theorem le_maxDefault0 {x : Int} {l : List Int} (h : x ∈ l) : x ≤ maxDefault0 l := by
  cases l with
  | nil => cases h
  | cons y ys =>
      rcases List.mem_cons.mp h with rfl | hy
      · exact foldl_max_le_init x ys
      · exact foldl_max_le_of_mem y hy

theorem ensureTasksLoaded_of_ne_nil {s : ServerState} (h : s.tasks ≠ []) :
    ensureTasksLoaded s = s := by
  unfold ensureTasksLoaded
  rw [if_neg]
  simp [List.isEmpty_iff, h]

theorem mem_ensureTasksLoaded {s : ServerState} {a : Task} (h : a ∈ s.tasks) :
    a ∈ (ensureTasksLoaded s).tasks := by
  have hne : s.tasks ≠ [] := by
    intro he
    rw [he] at h
    cases h
  rw [ensureTasksLoaded_of_ne_nil hne]
  exact h

theorem add_task_snd (s : ServerState) (t : String) :
    (add_task s t).2 =
      ⟨maxDefault0 ((ensureTasksLoaded s).tasks.map Task.id) + 1, t⟩ := rfl

theorem add_task_fst_tasks (s : ServerState) (t : String) :
    (add_task s t).1.tasks = (ensureTasksLoaded s).tasks ++ [(add_task s t).2] := rfl

theorem delete_tasks_fst_tasks (s : ServerState) (ids : List Int) :
    (delete_tasks s ids).1.tasks =
      (ensureTasksLoaded s).tasks.filter (fun t => !ids.dedup.contains t.id) := rfl

/-- Invariant lemma behind the amended C3: running creates only, the ids
assigned are pairwise increasing and exceed the ids of every task already
in the cache at the start. -/
theorem runOps_creates_pairwise (texts : List String) (s : ServerState) :
    List.Pairwise (· < ·) (runOps s (texts.map Op.create)).2 ∧
      ∀ i ∈ (runOps s (texts.map Op.create)).2, ∀ a ∈ s.tasks, a.id < i := by
  induction texts generalizing s with
  | nil => exact ⟨List.Pairwise.nil, by intro i hi; cases hi⟩
  | cons t texts ih =>
      have hstep :
          (runOps s ((t :: texts).map Op.create)).2 =
            (add_task s t).2.id :: (runOps (add_task s t).1 (texts.map Op.create)).2 := rfl
      obtain ⟨ihp, ihb⟩ := ih (add_task s t).1
      have hnewmem : (add_task s t).2 ∈ (add_task s t).1.tasks := by
        rw [add_task_fst_tasks]
        exact List.mem_append_right _ (List.mem_singleton.mpr rfl)
      have hlt : ∀ i ∈ (runOps (add_task s t).1 (texts.map Op.create)).2,
          (add_task s t).2.id < i := fun i hi => ihb i hi _ hnewmem
      constructor
      · rw [hstep]
        exact List.pairwise_cons.mpr ⟨hlt, ihp⟩
      · rw [hstep]
        intro i hi a ha
        rcases List.mem_cons.mp hi with rfl | hi'
        · have : a.id ∈ (ensureTasksLoaded s).tasks.map Task.id :=
            List.mem_map_of_mem Task.id (mem_ensureTasksLoaded ha)
          have := le_maxDefault0 this
          rw [add_task_snd]
          exact lt_of_le_of_lt this (lt_add_one _)
        · refine ihb i hi' a ?_
          rw [add_task_fst_tasks]
          exact List.mem_append_left _ (mem_ensureTasksLoaded ha)

/-! Claim theorems for the task store. -/

/-- C2: for every task collection state, `add_task` assigns the new task
the id `max(existing ids, default 0) + 1`, appends the new record to the
collection, persists the whole collection to the backing file, and
returns the new record; in particular, on `[{id:1},{id:3}]` it assigns
id 4 (max+1, not count+1), and on an empty collection it assigns id 1. -/
theorem create_assigns_max_plus_one :
    (∀ (s : ServerState) (text : String),
        (add_task s text).2 =
            ⟨maxDefault0 ((ensureTasksLoaded s).tasks.map Task.id) + 1, text⟩ ∧
          (add_task s text).1.tasks =
            (ensureTasksLoaded s).tasks ++ [(add_task s text).2] ∧
          (add_task s text).1.file = TasksFile.array (add_task s text).1.tasks) ∧
      (add_task ⟨[⟨1, "a"⟩, ⟨3, "b"⟩], TasksFile.array [⟨1, "a"⟩, ⟨3, "b"⟩], 1⟩ "x").2 =
        ⟨4, "x"⟩ ∧
      (add_task ⟨[], TasksFile.missing, 0⟩ "buy milk").2 = ⟨1, "buy milk"⟩ := by
  refine ⟨fun s text => ⟨rfl, rfl, rfl⟩, by decide, by decide⟩

/-- C1: `delete_tasks` removes exactly the tasks whose id is among the
requested ids and reports, as `deleted`, the number of distinct ids
requested (`len(set(body.ids))`) — not the number of tasks actually
removed.  For a duplicate-free request list this is the length of the
request; in the spec scenario `delete({ids:[1,99]})` against a state
holding only id 1, task 1 is removed and the response is `{deleted:2}`. -/
theorem delete_removes_targets_and_reports_requested_count :
    (∀ (s : ServerState) (ids : List Int), (delete_tasks s ids).2 = ids.dedup.length) ∧
      (∀ (s : ServerState) (ids : List Int) (t : Task),
        t ∈ (delete_tasks s ids).1.tasks ↔
          t ∈ (ensureTasksLoaded s).tasks ∧ t.id ∉ ids) ∧
      (delete_tasks ⟨[⟨1, "t1"⟩], TasksFile.array [⟨1, "t1"⟩], 1⟩ [1, 99]).1.tasks = [] ∧
      (delete_tasks ⟨[⟨1, "t1"⟩], TasksFile.array [⟨1, "t1"⟩], 1⟩ [1, 99]).2 = 2 := by
  refine ⟨fun s ids => rfl, ?_, by decide, by decide⟩
  intro s ids t
  rw [delete_tasks_fst_tasks, List.mem_filter]
  simp [List.mem_dedup]

/-- C3 (counterexample): starting from the empty store, the operation
sequence create "a", create "b", delete {2}, create "c" assigns the id
sequence [1, 2, 2] within one process lifetime — id 2 is assigned twice,
so the ids assigned by create are not pairwise distinct. -/
theorem create_id_reuse_counterexample :
    (runOps ⟨[], TasksFile.missing, 0⟩
        [Op.create "a", Op.create "b", Op.delete [2], Op.create "c"]).2 = [1, 2, 2] ∧
      ¬ List.Nodup (runOps ⟨[], TasksFile.missing, 0⟩
        [Op.create "a", Op.create "b", Op.delete [2], Op.create "c"]).2 := by
  exact ⟨by decide, by decide⟩

/-- C3 (amended): within a sequence of create operations with no
intervening deletes, starting from any state, the assigned ids are
strictly increasing, hence pairwise distinct; each new id exceeds every
id in the collection when the sequence starts.  (After a delete removes
the maximum id, a later create can reassign it, as the counterexample
shows.) -/
theorem creates_without_deletes_assign_distinct_ids
    (texts : List String) (s : ServerState) :
    List.Pairwise (· < ·) (runOps s (texts.map Op.create)).2 ∧
      List.Nodup (runOps s (texts.map Op.create)).2 := by
  refine ⟨(runOps_creates_pairwise texts s).1, ?_⟩
  exact (runOps_creates_pairwise texts s).1.imp fun h => ne_of_lt h

/-- C7 (code bug): the loader does not return the empty list on every
corrupt file and does raise.  A backing file whose bytes are not valid
UTF-8 makes `read_text` raise `UnicodeDecodeError`, and JSON nested
beyond the recursion limit makes `json.loads` raise `RecursionError`;
neither is caught by `except (json.JSONDecodeError, OSError)` at
main.py line 153, so the exception escapes `load_tasks_from_file` —
contradicting the function's own docstring ("Returns empty list if
file missing or invalid") — and `GET /tasks` on a cold process over
such a file fails with an unhandled exception.  The error branches the
code does catch (missing file, `OSError`, undecodable JSON, non-array
JSON) do return the empty list, and `list` on them returns the empty
list as the claim says. -/
theorem load_raises_on_undecodable_bytes :
    load_tasks_from_file_raw RawTasksFile.invalidUtf8 =
        Except.error "UnicodeDecodeError" ∧
      load_tasks_from_file_raw RawTasksFile.tooDeep =
        Except.error "RecursionError" ∧
      list_tasks_raw [] RawTasksFile.invalidUtf8 =
        Except.error "UnicodeDecodeError" ∧
      load_tasks_from_file_raw RawTasksFile.missing = Except.ok [] ∧
      load_tasks_from_file_raw RawTasksFile.osError = Except.ok [] ∧
      load_tasks_from_file_raw RawTasksFile.invalidJson = Except.ok [] ∧
      load_tasks_from_file_raw RawTasksFile.nonArray = Except.ok [] ∧
      list_tasks_raw [] RawTasksFile.invalidJson = Except.ok [] ∧
      list_tasks_raw [] RawTasksFile.nonArray = Except.ok [] := by
  exact ⟨rfl, rfl, rfl, rfl, rfl, rfl, rfl, rfl, rfl⟩

/-- C8 (counterexample): hydration is not one-shot.  From a process with
an empty cache and a file holding task 1, `delete({ids:[1]})` performs
the first file read (reads = 1) and leaves the cache empty; the next
`list` call re-reads the file (reads = 2), contradicting the claim that
after the first hydration no later operation re-reads the file. -/
theorem rehydration_counterexample :
    ((runOps ⟨[], TasksFile.array [⟨1, "a"⟩], 0⟩ [Op.delete [1]]).1).reads = 1 ∧
      ((runOps ⟨[], TasksFile.array [⟨1, "a"⟩], 0⟩ [Op.delete [1]]).1).tasks = [] ∧
      ((runOps ⟨[], TasksFile.array [⟨1, "a"⟩], 0⟩
          [Op.delete [1], Op.listAll]).1).reads = 2 := by
  exact ⟨by decide, by decide, by decide⟩

/-- C8 (amended): `_ensure_tasks_loaded` hydrates the cache from the
backing file whenever the cache is currently empty and the file exists;
the guard is re-evaluated on every call, so the file is read again each
time the cache has become empty — including after an earlier hydration
(the hypothesis places no bound on the number of reads already
performed). -/
theorem ensure_loads_whenever_cache_empty (s : ServerState)
    (h1 : s.tasks = []) (h2 : fileExists s.file = true) :
    ensureTasksLoaded s =
      { s with tasks := load_tasks_from_file s.file, reads := s.reads + 1 } := by
  unfold ensureTasksLoaded
  rw [if_pos]
  simp [h1, h2]

/-- C8 witness: a state with an empty cache, an existing file, and three
reads already performed is hydrated again by `_ensure_tasks_loaded`. -/
theorem ensure_loads_whenever_cache_empty_witness :
    ensureTasksLoaded ⟨[], TasksFile.array [⟨5, "x"⟩], 3⟩ =
      ⟨[⟨5, "x"⟩], TasksFile.array [⟨5, "x"⟩], 4⟩ :=
  ensure_loads_whenever_cache_empty ⟨[], TasksFile.array [⟨5, "x"⟩], 3⟩ rfl rfl

/-- C10: delete does not disturb non-targeted records — every task of
the (hydrated) collection whose id is not among the requested ids is
still present, unchanged, after the delete, and the surviving
collection is a sublist of the original, so the relative order of
survivors is preserved. -/
theorem delete_frame_preserves_untargeted (s : ServerState) (ids : List Int)
    (t : Task) (h1 : t ∈ (ensureTasksLoaded s).tasks) (h2 : t.id ∉ ids) :
    t ∈ (delete_tasks s ids).1.tasks ∧
      List.Sublist (delete_tasks s ids).1.tasks (ensureTasksLoaded s).tasks := by
  constructor
  · rw [delete_tasks_fst_tasks, List.mem_filter]
    refine ⟨h1, ?_⟩
    simp [List.mem_dedup, h2]
  · rw [delete_tasks_fst_tasks]
    exact List.filter_sublist _

/-- C10 witness: deleting id 2 from [task 1, task 2, task 3] keeps task 1
unchanged and the survivors in order. -/
theorem delete_frame_preserves_untargeted_witness :
    (⟨1, "a"⟩ : Task) ∈
        (delete_tasks ⟨[⟨1, "a"⟩, ⟨2, "b"⟩, ⟨3, "c"⟩],
          TasksFile.array [⟨1, "a"⟩, ⟨2, "b"⟩, ⟨3, "c"⟩], 0⟩ [2]).1.tasks ∧
      List.Sublist
        (delete_tasks ⟨[⟨1, "a"⟩, ⟨2, "b"⟩, ⟨3, "c"⟩],
          TasksFile.array [⟨1, "a"⟩, ⟨2, "b"⟩, ⟨3, "c"⟩], 0⟩ [2]).1.tasks
        (ensureTasksLoaded ⟨[⟨1, "a"⟩, ⟨2, "b"⟩, ⟨3, "c"⟩],
          TasksFile.array [⟨1, "a"⟩, ⟨2, "b"⟩, ⟨3, "c"⟩], 0⟩).tasks :=
  delete_frame_preserves_untargeted _ [2] ⟨1, "a"⟩ (by decide) (by decide)

end TaskApi

namespace Py

/-- Characters stripped by Python `str.strip()` with no argument
(`string.whitespace`: space, tab, newline, carriage return, vertical
tab, form feed). -/
def isSpace (c : Char) : Bool :=
  c == ' ' || c == '\t' || c == '\n' || c == '\r' ||
    c == Char.ofNat 11 || c == Char.ofNat 12

/-- Python `str.strip()` on a character list. -/
def stripL (l : List Char) : List Char :=
  ((l.dropWhile isSpace).reverse.dropWhile isSpace).reverse

/-- Python `str.strip()`. -/
def strip (s : String) : String := String.mk (stripL s.data)

/-- Python `a or b` for strings: the left operand unless it is falsy
(empty), else the right operand. -/
def pyOr (s d : String) : String := if s = "" then d else s

/-- Characters the dedent margin is made of (`[ \t]` in the regexes of
`textwrap.dedent`). -/
def spaceOrTab (c : Char) : Bool := c == ' ' || c == '\t'

/-- Python `str.split("\n")`: the list of lines, keeping empty lines,
with no separator characters ("" splits to [""]). -/
def splitLines : List Char → List (List Char)
  | [] => [[]]
  | c :: rest =>
      if c = '\n' then [] :: splitLines rest
      else
        match splitLines rest with
        | [] => [[c]]
        | l :: ls => (c :: l) :: ls

/-- Python `"\n".join(lines)` on character lists. -/
def joinLines : List (List Char) → List Char
  | [] => []
  | l :: ls =>
      match ls with
      | [] => l
      | _ :: _ => l ++ '\n' :: joinLines ls

/-- Longest common prefix of two character lists (the margin folding of
`textwrap.dedent`). -/
def commonPrefix : List Char → List Char → List Char
  | c :: a, d :: b => if c = d then c :: commonPrefix a b else []
  | _, _ => []

/-- Whether `p` occurs at the start of `s`. -/
def begMatch : List Char → List Char → Bool
  | [], _ => true
  | _ :: _, [] => false
  | c :: p, d :: s => c == d && begMatch p s

/-- Whether `p` occurs as a contiguous run somewhere in `s` (Python
`p in s`). -/
def hasSub (p : List Char) : List Char → Bool
  | [] => begMatch p []
  | d :: s => begMatch p (d :: s) || hasSub p s

/-- Python `p in s` on strings. -/
def hasSubStr (p s : String) : Bool := hasSub p.data s.data

/-- First pass of `textwrap.dedent`: lines consisting solely of spaces
and tabs are normalized to empty lines (`_whitespace_only_re.sub('',
text)`). -/
def blankWs (ln : List Char) : List Char :=
  if !ln.isEmpty && ln.all spaceOrTab then [] else ln

/-- Indent of a line that has content, per `_leading_whitespace_re`:
after blanking, every nonempty line has a character outside `[ \t]`,
and its indent is its maximal `[ \t]` prefix. -/
def lineIndent (ln : List Char) : Option (List Char) :=
  if ln.isEmpty then none else some (ln.takeWhile spaceOrTab)

/-- Final pass of `textwrap.dedent`: remove the margin from each line
that starts with it (`re.sub(r'(?m)^' + margin, '', text)`). -/
def stripMargin (m ln : List Char) : List Char :=
  if begMatch m ln then ln.drop m.length else ln

/-- Embedding of `textwrap.dedent` on a character list: blank the
whitespace-only lines, compute the margin as the longest common `[ \t]`
prefix of the content lines, and strip it from every line starting
with it. -/
def dedentL (s : List Char) : List Char :=
  let lines := (splitLines s).map blankWs
  let margin :=
    match lines.filterMap lineIndent with
    | [] => []
    | i :: is => is.foldl commonPrefix i
  joinLines (lines.map (stripMargin margin))

/-- Embedding of `textwrap.dedent`. -/
def dedent (s : String) : String := String.mk (dedentL s.data)

/-- Python truthiness of an optional string (`None` and `""` are falsy). -/
def truthy (o : Option String) : Bool := !(o.getD "" == "")

end Py

namespace Apps

/-- Outcome of the `st.secrets[name]` lookup: the platform store either
raises (missing key, no secrets file, ...) or yields a value. -/
inductive StoreLookup where
  | raises
  | found (v : String)

/-- Layered configuration sources read by `_get_secret`: the
Streamlit-Cloud secret store and the process environment
(`os.getenv`, which may return a value or `None`). -/
structure SecretsEnv where
  store : String → StoreLookup
  env : String → Option String

/-- Embedding of `_get_secret` (identical in both apps): try
`st.secrets[name]`; if that raises, or yields a falsy (empty) value,
fall through silently to `os.getenv(name)`. -/
def getSecret (e : SecretsEnv) (name : String) : Option String :=
  match e.store name with
  | .found v => if v ≠ "" then some v else e.env name
  | .raises => e.env name

/-- The three LLM providers routed between. -/
inductive Provider where
  | anthropic
  | openai
  | gemini
deriving DecidableEq, Repr

/-- One chat turn of the Anthropic `messages` argument. -/
structure ChatMessage where
  role : String
  content : String
deriving DecidableEq, Repr

/-- Keyword arguments of `client.messages.create(...)` in the Anthropic
branch of both apps.  The float temperature 0.7 is modelled as the
rational 7/10. -/
structure AnthropicReq where
  model : String
  max_tokens : Nat
  temperature : ℚ
  system : String
  messages : List ChatMessage
deriving DecidableEq, Repr

/-- Keyword arguments of `client.responses.create(...)` in the OpenAI
branch of both apps. -/
structure OpenAIReq where
  model : String
  instructions : String
  input : String
  max_output_tokens : Nat
  temperature : ℚ
deriving DecidableEq, Repr

/-- The `generation_config` dict passed by the family planner's Gemini
branch (its only key is `max_output_tokens`). -/
structure GenerationConfig where
  max_output_tokens : Nat
deriving DecidableEq, Repr

/-- Keyword arguments of `client.models.generate_content(...)` in the
Gemini branch: a single `contents` string, plus `generation_config`
only where the source passes one (family planner yes, career coach no). -/
structure GeminiReq where
  model : String
  contents : String
  generation_config : Option GenerationConfig
deriving DecidableEq, Repr

/-- Anthropic response: a list of content blocks; `block.type` is read
with `getattr(block, "type", None)` (field renamed `blockType` because
`type` is a Lean keyword) and `block.text` is concatenated for blocks
whose type is "text". -/
structure AnthropicBlock where
  blockType : Option String
  text : String

/-- Anthropic response envelope (`response.content`). -/
structure AnthropicResp where
  content : List AnthropicBlock

/-- OpenAI response envelope: `response.output_text`, possibly `None`. -/
structure OpenAIResp where
  output_text : Option String

/-- Gemini response envelope: `getattr(response, "text", "")`, with the
attribute possibly absent or `None` (both modelled as `none`). -/
structure GeminiResp where
  text : Option String

/-- External world the router runs against: which optional client
libraries are importable, and what each provider's endpoint does with a
given api key and request — either a response or a raised exception
(modelled as `Except` with the exception text).  The `anthropic`
package is imported at module top level in both apps, so its absence
cannot reach the router and is not modelled. -/
structure World where
  secrets : SecretsEnv
  openaiInstalled : Bool
  geminiInstalled : Bool
  anthropicCall : String → AnthropicReq → Except String AnthropicResp
  openaiCall : String → OpenAIReq → Except String OpenAIResp
  geminiCall : String → GeminiReq → Except String GeminiResp

/-- Observable result of a routing call: the returned string, the
`st.error` messages surfaced, and the providers actually dispatched to.
The function being total is the embedding of "no exception escapes to
the caller". -/
structure RouteResult where
  text : String
  errors : List String
  dispatched : List Provider
deriving DecidableEq

/-- Message of the `st.error` in the no-key branch (identical in both
apps). -/
def noKeyMsg : String :=
  "No model API key found. Please set at least one of ANTHROPIC_API_KEY, OPENAI_API_KEY, or GEMINI_API_KEY in your Streamlit secrets (secrets.toml) or in a local .env file."

/-- Message of the `st.error` when the `openai` package is missing. -/
def openaiMissingMsg : String :=
  "OpenAI support requires the \x27openai\x27 package. Install it with `pip install openai` or unset OPENAI_API_KEY."

/-- Message of the `st.error` when the `google-genai` package is
missing. -/
def geminiMissingMsg : String :=
  "Gemini support requires the \x27google-genai\x27 package. Install it with `pip install google-genai` or unset GEMINI_API_KEY."

/-- Message of the `st.error` in the catch-all `except` clause:
`f"Error calling language model ({provider}): {exc}"`. -/
def callErrorMsg (provider exc : String) : String :=
  "Error calling language model (" ++ provider ++ "): " ++ exc

/-- Extraction of plain text from an Anthropic response: concatenate the
`text` of all blocks whose type is "text", then strip. -/
def anthropicText (resp : AnthropicResp) : String :=
  Py.strip (String.join (resp.content.filterMap
    (fun b => if b.blockType == some "text" then some b.text else none)))

/-- `MAX_OUTPUT_TOKENS` of the family activity planner app. -/
def MAX_OUTPUT_TOKENS : Nat := 4096

/-- Request built by the family planner's Anthropic branch (lines
60–66 of the app). -/
def familyAnthropicReq (system_prompt user_content : String) : AnthropicReq :=
  { model := "claude-sonnet-4-6", max_tokens := MAX_OUTPUT_TOKENS,
    temperature := 7/10, system := system_prompt,
    messages := [⟨"user", user_content⟩] }

/-- Request built by the family planner's OpenAI branch (lines 85–91). -/
def familyOpenAIReq (system_prompt user_content : String) : OpenAIReq :=
  { model := "gpt-4.1-mini", instructions := system_prompt,
    input := user_content, max_output_tokens := MAX_OUTPUT_TOKENS,
    temperature := 7/10 }

/-- Request built by the family planner's Gemini branch (lines 106–110):
system prompt and user content concatenated into one contents string,
and a generation_config carrying only max_output_tokens. -/
def familyGeminiReq (system_prompt user_content : String) : GeminiReq :=
  { model := "gemini-2.0-flash",
    contents := system_prompt ++ "\n\n" ++ user_content,
    generation_config := some ⟨MAX_OUTPUT_TOKENS⟩ }

/-- Request built by the career coach's Anthropic branch (lines 57–63). -/
def coachAnthropicReq (system_prompt user_content : String) : AnthropicReq :=
  { model := "claude-sonnet-4-6", max_tokens := 1200,
    temperature := 7/10, system := system_prompt,
    messages := [⟨"user", user_content⟩] }

/-- Request built by the career coach's OpenAI branch (lines 82–88). -/
def coachOpenAIReq (system_prompt user_content : String) : OpenAIReq :=
  { model := "gpt-4.1-mini", instructions := system_prompt,
    input := user_content, max_output_tokens := 1200, temperature := 7/10 }

/-- Request built by the career coach's Gemini branch (lines 103–106):
no generation_config and no temperature at all. -/
def coachGeminiReq (system_prompt user_content : String) : GeminiReq :=
  { model := "gemini-2.0-flash",
    contents := system_prompt ++ "\n\n" ++ user_content,
    generation_config := none }

/-- Embedding of `call_family_activity_planner` (family planner app,
lines 29–116): resolve the three keys, pick the first truthy one in the
fixed order Anthropic, OpenAI, Gemini, dispatch one request to that
provider only, extract and strip the response text; every failure
(no key, missing optional library, raised exception) degrades to an
empty string plus a surfaced `st.error` message. -/
def callFamilyActivityPlanner (w : World) (system_prompt user_content : String) :
    RouteResult :=
  let anthropic_key := getSecret w.secrets "ANTHROPIC_API_KEY"
  let openai_key := getSecret w.secrets "OPENAI_API_KEY"
  let gemini_key := getSecret w.secrets "GEMINI_API_KEY"
  if Py.truthy anthropic_key then
    match w.anthropicCall (anthropic_key.getD "")
        (familyAnthropicReq system_prompt user_content) with
    | Except.ok resp =>
        { text := anthropicText resp, errors := [],
          dispatched := [Provider.anthropic] }
    | Except.error exc =>
        { text := "", errors := [callErrorMsg "anthropic" exc],
          dispatched := [Provider.anthropic] }
  else if Py.truthy openai_key then
    if w.openaiInstalled then
      match w.openaiCall (openai_key.getD "")
          (familyOpenAIReq system_prompt user_content) with
      | Except.ok resp =>
          { text := Py.strip (resp.output_text.getD ""), errors := [],
            dispatched := [Provider.openai] }
      | Except.error exc =>
          { text := "", errors := [callErrorMsg "openai" exc],
            dispatched := [Provider.openai] }
    else
      { text := "", errors := [openaiMissingMsg], dispatched := [] }
  else if Py.truthy gemini_key then
    if w.geminiInstalled then
      match w.geminiCall (gemini_key.getD "")
          (familyGeminiReq system_prompt user_content) with
      | Except.ok resp =>
          { text := Py.strip (resp.text.getD ""), errors := [],
            dispatched := [Provider.gemini] }
      | Except.error exc =>
          { text := "", errors := [callErrorMsg "gemini" exc],
            dispatched := [Provider.gemini] }
    else
      { text := "", errors := [geminiMissingMsg], dispatched := [] }
  else
    { text := "", errors := [noKeyMsg], dispatched := [] }

/-- Embedding of `call_pm_coach` (career coach app, lines 26–112):
identical control flow to the family planner's router, with the coach's
request parameters. -/
def callPmCoach (w : World) (system_prompt user_content : String) : RouteResult :=
  let anthropic_key := getSecret w.secrets "ANTHROPIC_API_KEY"
  let openai_key := getSecret w.secrets "OPENAI_API_KEY"
  let gemini_key := getSecret w.secrets "GEMINI_API_KEY"
  if Py.truthy anthropic_key then
    match w.anthropicCall (anthropic_key.getD "")
        (coachAnthropicReq system_prompt user_content) with
    | Except.ok resp =>
        { text := anthropicText resp, errors := [],
          dispatched := [Provider.anthropic] }
    | Except.error exc =>
        { text := "", errors := [callErrorMsg "anthropic" exc],
          dispatched := [Provider.anthropic] }
  else if Py.truthy openai_key then
    if w.openaiInstalled then
      match w.openaiCall (openai_key.getD "")
          (coachOpenAIReq system_prompt user_content) with
      | Except.ok resp =>
          { text := Py.strip (resp.output_text.getD ""), errors := [],
            dispatched := [Provider.openai] }
      | Except.error exc =>
          { text := "", errors := [callErrorMsg "openai" exc],
            dispatched := [Provider.openai] }
    else
      { text := "", errors := [openaiMissingMsg], dispatched := [] }
  else if Py.truthy gemini_key then
    if w.geminiInstalled then
      match w.geminiCall (gemini_key.getD "")
          (coachGeminiReq system_prompt user_content) with
      | Except.ok resp =>
          { text := Py.strip (resp.text.getD ""), errors := [],
            dispatched := [Provider.gemini] }
      | Except.error exc =>
          { text := "", errors := [callErrorMsg "gemini" exc],
            dispatched := [Provider.gemini] }
    else
      { text := "", errors := [geminiMissingMsg], dispatched := [] }
  else
    { text := "", errors := [noKeyMsg], dispatched := [] }

/-- Whether the Anthropic credential resolves to a truthy value at the
top of both routers. -/
def anthropicKeySet (w : World) : Bool :=
  Py.truthy (getSecret w.secrets "ANTHROPIC_API_KEY")

/-- Whether the OpenAI credential resolves to a truthy value. -/
def openaiKeySet (w : World) : Bool :=
  Py.truthy (getSecret w.secrets "OPENAI_API_KEY")

/-- Whether the Gemini credential resolves to a truthy value. -/
def geminiKeySet (w : World) : Bool :=
  Py.truthy (getSecret w.secrets "GEMINI_API_KEY")

/-- Uniform view of a dispatched request, for comparing the provider
branches: the provider, the system prompt where it is passed as a
distinct field, the user-role message contents, and the optional
max-token and temperature parameters (absent keyword = `none`). -/
structure RequestView where
  provider : Provider
  systemPart : Option String
  userTurns : List String
  maxTokens : Option Nat
  temperature : Option ℚ
deriving DecidableEq, Repr

/-- View of an Anthropic request. -/
def viewAnthropic (r : AnthropicReq) : RequestView :=
  ⟨Provider.anthropic, some r.system,
    (r.messages.filter (fun m => m.role == "user")).map ChatMessage.content,
    some r.max_tokens, some r.temperature⟩

/-- View of an OpenAI request. -/
def viewOpenAI (r : OpenAIReq) : RequestView :=
  ⟨Provider.openai, some r.instructions, [r.input],
    some r.max_output_tokens, some r.temperature⟩

/-- View of a Gemini request: no separate system field and no
temperature keyword exist in either app's Gemini branch; max tokens are
present only when a generation_config is passed. -/
def viewGemini (r : GeminiReq) : RequestView :=
  ⟨Provider.gemini, none, [r.contents],
    r.generation_config.map GenerationConfig.max_output_tokens, none⟩

/-- C6 (counterexample): the Gemini branches do not carry the claimed
fixed sampling parameters.  The career coach's Gemini request has no
temperature keyword and no token cap at all, and the family planner's
Gemini request has no temperature keyword; both also pass the system
prompt concatenated into the contents string rather than as a separate
field. -/
theorem gemini_branch_missing_sampling_params :
    (viewGemini (coachGeminiReq "s" "u")).temperature ≠ some (7/10) ∧
      (viewGemini (coachGeminiReq "s" "u")).maxTokens ≠ some 1200 ∧
      (viewGemini (familyGeminiReq "s" "u")).temperature ≠ some (7/10) ∧
      (viewGemini (familyGeminiReq "s" "u")).systemPart = none := by
  refine ⟨?_, ?_, ?_, rfl⟩ <;> simp [viewGemini, coachGeminiReq, familyGeminiReq]

/-- C6 (amended): the Anthropic and OpenAI branches of both apps carry
the system prompt as a distinct field, the user message as the sole user
turn, temperature 0.7 and the app's hard output cap (4096 for the
family planner, 1200 for the career coach); the Gemini branches instead
concatenate system prompt and user message into a single contents
string and pass no temperature — the family planner's Gemini branch
still passes the 4096 cap via generation_config, while the career
coach's Gemini branch passes no cap at all. -/
theorem request_parameters_per_branch (sys usr : String) :
    viewAnthropic (familyAnthropicReq sys usr) =
        ⟨Provider.anthropic, some sys, [usr], some 4096, some (7/10)⟩ ∧
      viewOpenAI (familyOpenAIReq sys usr) =
        ⟨Provider.openai, some sys, [usr], some 4096, some (7/10)⟩ ∧
      viewGemini (familyGeminiReq sys usr) =
        ⟨Provider.gemini, none, [sys ++ "\n\n" ++ usr], some 4096, none⟩ ∧
      viewAnthropic (coachAnthropicReq sys usr) =
        ⟨Provider.anthropic, some sys, [usr], some 1200, some (7/10)⟩ ∧
      viewOpenAI (coachOpenAIReq sys usr) =
        ⟨Provider.openai, some sys, [usr], some 1200, some (7/10)⟩ ∧
      viewGemini (coachGeminiReq sys usr) =
        ⟨Provider.gemini, none, [sys ++ "\n\n" ++ usr], none, none⟩ := by
  refine ⟨rfl, rfl, rfl, rfl, rfl, rfl⟩

/-- C4: both routers select the first provider, in the fixed priority
order Anthropic, OpenAI, Gemini, whose secret resolved to a truthy
(non-empty) value, and dispatch to that provider only (exactly one
request when its library is importable, none otherwise); when no secret
resolves, they surface the configuration error message and return the
empty string without dispatching. -/
theorem route_selects_first_available_provider (w : World) (sys usr : String) :
    (anthropicKeySet w = true →
      (callFamilyActivityPlanner w sys usr).dispatched = [Provider.anthropic] ∧
        (callPmCoach w sys usr).dispatched = [Provider.anthropic]) ∧
      (anthropicKeySet w = false → openaiKeySet w = true →
        (∀ p ∈ (callFamilyActivityPlanner w sys usr).dispatched, p = Provider.openai) ∧
          (∀ p ∈ (callPmCoach w sys usr).dispatched, p = Provider.openai) ∧
          (w.openaiInstalled = true →
            (callFamilyActivityPlanner w sys usr).dispatched = [Provider.openai] ∧
              (callPmCoach w sys usr).dispatched = [Provider.openai])) ∧
      (anthropicKeySet w = false → openaiKeySet w = false → geminiKeySet w = true →
        (∀ p ∈ (callFamilyActivityPlanner w sys usr).dispatched, p = Provider.gemini) ∧
          (∀ p ∈ (callPmCoach w sys usr).dispatched, p = Provider.gemini) ∧
          (w.geminiInstalled = true →
            (callFamilyActivityPlanner w sys usr).dispatched = [Provider.gemini] ∧
              (callPmCoach w sys usr).dispatched = [Provider.gemini])) ∧
      (anthropicKeySet w = false → openaiKeySet w = false → geminiKeySet w = false →
        callFamilyActivityPlanner w sys usr = ⟨"", [noKeyMsg], []⟩ ∧
          callPmCoach w sys usr = ⟨"", [noKeyMsg], []⟩) := by
  refine ⟨?_, ?_, ?_, ?_⟩
  · intro ha
    simp only [anthropicKeySet] at ha
    constructor
    · simp only [callFamilyActivityPlanner, ha, if_true]
      split <;> rfl
    · simp only [callPmCoach, ha, if_true]
      split <;> rfl
  · intro ha ho
    simp only [anthropicKeySet] at ha
    simp only [openaiKeySet] at ho
    cases hoi : w.openaiInstalled with
    | false =>
        refine ⟨?_, ?_, ?_⟩ <;>
          simp [callFamilyActivityPlanner, callPmCoach, ha, ho, hoi]
    | true =>
        refine ⟨?_, ?_, fun _ => ⟨?_, ?_⟩⟩ <;>
          · simp only [callFamilyActivityPlanner, callPmCoach, ha, ho, hoi,
              Bool.false_eq_true, if_false, if_true]
            split <;> simp
  · intro ha ho hg
    simp only [anthropicKeySet] at ha
    simp only [openaiKeySet] at ho
    simp only [geminiKeySet] at hg
    cases hgi : w.geminiInstalled with
    | false =>
        refine ⟨?_, ?_, ?_⟩ <;>
          simp [callFamilyActivityPlanner, callPmCoach, ha, ho, hg, hgi]
    | true =>
        refine ⟨?_, ?_, fun _ => ⟨?_, ?_⟩⟩ <;>
          · simp only [callFamilyActivityPlanner, callPmCoach, ha, ho, hg, hgi,
              Bool.false_eq_true, if_false, if_true]
            split <;> simp
  · intro ha ho hg
    simp only [anthropicKeySet] at ha
    simp only [openaiKeySet] at ho
    simp only [geminiKeySet] at hg
    constructor <;> simp [callFamilyActivityPlanner, callPmCoach, ha, ho, hg]

/-- Concrete world with no credential resolving anywhere: the secret
store raises for every name and the environment has no variables. -/
def worldNoKeys : World :=
  { secrets := ⟨fun _ => StoreLookup.raises, fun _ => none⟩,
    openaiInstalled := false, geminiInstalled := false,
    anthropicCall := fun _ _ => Except.error "boom",
    openaiCall := fun _ _ => Except.error "boom",
    geminiCall := fun _ _ => Except.error "boom" }

/-- Concrete world where only the Anthropic credential is set (in the
environment) and every provider call raises. -/
def worldAnthropicOnly : World :=
  { secrets := ⟨fun _ => StoreLookup.raises,
      fun n => if n = "ANTHROPIC_API_KEY" then some "k" else none⟩,
    openaiInstalled := true, geminiInstalled := true,
    anthropicCall := fun _ _ => Except.error "boom",
    openaiCall := fun _ _ => Except.error "boom",
    geminiCall := fun _ _ => Except.error "boom" }

/-- C4 witness: with only the Anthropic key set, both apps dispatch to
Anthropic only; with no key set, both surface the configuration error
and return the empty string. -/
theorem route_selects_first_available_provider_witness :
    ((callFamilyActivityPlanner worldAnthropicOnly "s" "u").dispatched =
        [Provider.anthropic] ∧
      (callPmCoach worldAnthropicOnly "s" "u").dispatched = [Provider.anthropic]) ∧
      (callFamilyActivityPlanner worldNoKeys "s" "u") = ⟨"", [noKeyMsg], []⟩ ∧
      (callPmCoach worldNoKeys "s" "u") = ⟨"", [noKeyMsg], []⟩ :=
  ⟨(route_selects_first_available_provider worldAnthropicOnly "s" "u").1 rfl,
    (route_selects_first_available_provider worldNoKeys "s" "u").2.2.2 rfl rfl rfl⟩

/-- C5: every failure mode of both routers — no credential resolving,
the selected provider's optional client library missing, or the
provider call raising — is caught: the router returns the empty string
and surfaces exactly one user-visible error message.  No exception
escapes to the caller: the routing functions are total, returning a
`RouteResult` for every world. -/
theorem route_failures_surface_error_and_return_empty
    (w : World) (sys usr exc : String) :
    (anthropicKeySet w = false → openaiKeySet w = false → geminiKeySet w = false →
      callFamilyActivityPlanner w sys usr = ⟨"", [noKeyMsg], []⟩ ∧
        callPmCoach w sys usr = ⟨"", [noKeyMsg], []⟩) ∧
      (anthropicKeySet w = false → openaiKeySet w = true → w.openaiInstalled = false →
        callFamilyActivityPlanner w sys usr = ⟨"", [openaiMissingMsg], []⟩ ∧
          callPmCoach w sys usr = ⟨"", [openaiMissingMsg], []⟩) ∧
      (anthropicKeySet w = false → openaiKeySet w = false → geminiKeySet w = true →
          w.geminiInstalled = false →
        callFamilyActivityPlanner w sys usr = ⟨"", [geminiMissingMsg], []⟩ ∧
          callPmCoach w sys usr = ⟨"", [geminiMissingMsg], []⟩) ∧
      (anthropicKeySet w = true →
        (w.anthropicCall ((getSecret w.secrets "ANTHROPIC_API_KEY").getD "")
            (familyAnthropicReq sys usr) = Except.error exc →
          callFamilyActivityPlanner w sys usr =
            ⟨"", [callErrorMsg "anthropic" exc], [Provider.anthropic]⟩) ∧
          (w.anthropicCall ((getSecret w.secrets "ANTHROPIC_API_KEY").getD "")
              (coachAnthropicReq sys usr) = Except.error exc →
            callPmCoach w sys usr =
              ⟨"", [callErrorMsg "anthropic" exc], [Provider.anthropic]⟩)) ∧
      (anthropicKeySet w = false → openaiKeySet w = true → w.openaiInstalled = true →
        (w.openaiCall ((getSecret w.secrets "OPENAI_API_KEY").getD "")
            (familyOpenAIReq sys usr) = Except.error exc →
          callFamilyActivityPlanner w sys usr =
            ⟨"", [callErrorMsg "openai" exc], [Provider.openai]⟩) ∧
          (w.openaiCall ((getSecret w.secrets "OPENAI_API_KEY").getD "")
              (coachOpenAIReq sys usr) = Except.error exc →
            callPmCoach w sys usr =
              ⟨"", [callErrorMsg "openai" exc], [Provider.openai]⟩)) ∧
      (anthropicKeySet w = false → openaiKeySet w = false → geminiKeySet w = true →
          w.geminiInstalled = true →
        (w.geminiCall ((getSecret w.secrets "GEMINI_API_KEY").getD "")
            (familyGeminiReq sys usr) = Except.error exc →
          callFamilyActivityPlanner w sys usr =
            ⟨"", [callErrorMsg "gemini" exc], [Provider.gemini]⟩) ∧
          (w.geminiCall ((getSecret w.secrets "GEMINI_API_KEY").getD "")
              (coachGeminiReq sys usr) = Except.error exc →
            callPmCoach w sys usr =
              ⟨"", [callErrorMsg "gemini" exc], [Provider.gemini]⟩)) := by
  refine ⟨?_, ?_, ?_, ?_, ?_, ?_⟩
  · intro ha ho hg
    simp only [anthropicKeySet] at ha
    simp only [openaiKeySet] at ho
    simp only [geminiKeySet] at hg
    constructor <;> simp [callFamilyActivityPlanner, callPmCoach, ha, ho, hg]
  · intro ha ho hoi
    simp only [anthropicKeySet] at ha
    simp only [openaiKeySet] at ho
    constructor <;> simp [callFamilyActivityPlanner, callPmCoach, ha, ho, hoi]
  · intro ha ho hg hgi
    simp only [anthropicKeySet] at ha
    simp only [openaiKeySet] at ho
    simp only [geminiKeySet] at hg
    constructor <;> simp [callFamilyActivityPlanner, callPmCoach, ha, ho, hg, hgi]
  · intro ha
    simp only [anthropicKeySet] at ha
    constructor <;> intro hc <;>
      simp [callFamilyActivityPlanner, callPmCoach, ha, hc]
  · intro ha ho hoi
    simp only [anthropicKeySet] at ha
    simp only [openaiKeySet] at ho
    constructor <;> intro hc <;>
      simp [callFamilyActivityPlanner, callPmCoach, ha, ho, hoi, hc]
  · intro ha ho hg hgi
    simp only [anthropicKeySet] at ha
    simp only [openaiKeySet] at ho
    simp only [geminiKeySet] at hg
    constructor <;> intro hc <;>
      simp [callFamilyActivityPlanner, callPmCoach, ha, ho, hg, hgi, hc]

/-- C5 witness: with no credential anywhere, both routers return the
empty string and surface the configuration error (note the error is
surfaced and the result is empty, exactly one message each). -/
theorem route_failures_surface_error_and_return_empty_witness :
    callFamilyActivityPlanner worldNoKeys "s" "u" = ⟨"", [noKeyMsg], []⟩ ∧
      callPmCoach worldNoKeys "s" "u" = ⟨"", [noKeyMsg], []⟩ :=
  (route_failures_surface_error_and_return_empty worldNoKeys "s" "u" "e").1
    rfl rfl rfl

end Apps

namespace Apps

/-- Raw template of `BASE_SYSTEM_PROMPT` (pm_career_coach_app lines
115–134), before `dedent(...).strip()`. -/
def BASE_SYSTEM_PROMPT_RAW : String := "\n    You are \"PM Career Coach\", an expert product management career coach with over 10 years\n    of experience coaching MBA students and early-career PMs into APM/PM roles at top\n    tech companies, high-growth startups, and leading enterprises.\n\n    Core principles:\n    - Give specific, actionable feedback tailored to the user\x27s target roles and background.\n    - Use clear structure with headings, subheadings, and bullet points.\n    - Reference common PM frameworks (e.g., problem → insight → hypothesis → experiment → metric).\n    - Emphasize prioritization, stakeholder management, and product sense.\n    - Be encouraging but direct; point out gaps concretely and propose ways to close them.\n\n    Formatting guidelines:\n    - Use concise paragraphs and bullet points.\n    - Use numbered steps when proposing plans or roadmaps.\n    - Avoid generic platitudes; focus on practical, PM-specific advice.\n    - When appropriate, include example phrases or sample responses the user can adapt.\n    "

/-- Template text before the first interpolated field. -/
def interviewSeg1 : String := "\n        Context about my background:\n        "

/-- Template text between the first and second interpolated fields. -/
def interviewSeg2 : String := "\n\n        Target role / company / level:\n        "

/-- Template text between the second and third interpolated fields. -/
def interviewSeg3 : String := "\n\n        Interview prep questions or areas I want help with:\n        "

/-- Template text after the third interpolated field. -/
def interviewSeg4 : String := "\n\n        Please:\n        - Identify 2–4 core themes I should lean on in PM interviews.\n        - Suggest structured answers (using frameworks like STAR or problem → solution → impact) for my key stories.\n        - Propose 3–5 likely PM interview questions based on my target role and context.\n        - Give bullet-point guidance on how to improve my delivery and depth in answers.\n        "

/-- Task-specific suffix appended to the base system prompt. -/
def interviewSuffix : String := "\n\nYou are currently helping the user with **PM interview preparation**. Focus on structured answers, behavioral examples, product sense, metrics, and tradeoffs. Help them turn their experience into compelling, concise interview stories."

/-- Placeholder substituted for a blank first field. -/
def interviewPh1 : String := "[User did not provide background details]"

/-- Placeholder substituted for a blank second field. -/
def interviewPh2 : String := "[User did not specify a target role or company]"

/-- Placeholder substituted for a blank third field. -/
def interviewPh3 : String := "[User did not specify particular questions]"

/-- Template text before the first interpolated field. -/
def gapSeg1 : String := "\n        Current background and experience:\n        "

/-- Template text between the first and second interpolated fields. -/
def gapSeg2 : String := "\n\n        Target PM role(s), level, and timeline:\n        "

/-- Template text between the second and third interpolated fields. -/
def gapSeg3 : String := "\n\n        Current PM-relevant skills, projects, or experiences:\n        "

/-- Template text after the third interpolated field. -/
def gapSeg4 : String := "\n\n        Please:\n        - Map my current profile against expectations for my target PM roles.\n        - Identify concrete skill, experience, and signaling gaps.\n        - Propose a 30–90 day development plan with specific projects, habits, or deliverables.\n        - Recommend how to demonstrate progress clearly on my resume, LinkedIn, and in conversations.\n        "

/-- Task-specific suffix appended to the base system prompt. -/
def gapSuffix : String := "\n\nYou are currently helping the user with a **PM skill and experience gap analysis**. Be specific about where they stand versus typical expectations for their target roles. Translate gaps into a focused, time-bound development plan."

/-- Placeholder substituted for a blank first field. -/
def gapPh1 : String := "[User did not provide background details]"

/-- Placeholder substituted for a blank second field. -/
def gapPh2 : String := "[User did not specify a target role or timeline]"

/-- Placeholder substituted for a blank third field. -/
def gapPh3 : String := "[User did not list current skills or experiences]"

/-- Template text before the first interpolated field. -/
def positioningSeg1 : String := "\n        My background (education, past roles, domains, key skills):\n        "

/-- Template text between the first and second interpolated fields. -/
def positioningSeg2 : String := "\n\n        Target companies / industries / product areas:\n        "

/-- Template text between the second and third interpolated fields. -/
def positioningSeg3 : String := "\n\n        My current career story or positioning (if any):\n        "

/-- Template text after the third interpolated field. -/
def positioningSeg4 : String := "\n\n        Please:\n        - Craft 1–2 concise PM positioning statements I can use in intros and summaries.\n        - Propose a clear career narrative that connects my past experience to PM roles.\n        - Suggest how to tailor this narrative for different types of companies (big tech, startup, non-tech).\n        - Provide 3–5 concrete lines I can reuse on my resume / LinkedIn headline / About section.\n        "

/-- Task-specific suffix appended to the base system prompt. -/
def positioningSuffix : String := "\n\nYou are currently helping the user with **PM career positioning and narrative**. Help them craft a compelling positioning statement and narrative tailored to their target companies."

/-- Placeholder substituted for a blank first field. -/
def positioningPh1 : String := "[User did not provide background details]"

/-- Placeholder substituted for a blank second field. -/
def positioningPh2 : String := "[User did not specify target companies or industries]"

/-- Placeholder substituted for a blank third field. -/
def positioningPh3 : String := "[User did not provide a current narrative]"


end Apps


namespace Apps

/-- The shared base system prompt of the career coach app:
`dedent("""...""").strip()` at module load (lines 115–134). -/
def BASE_SYSTEM_PROMPT : String := Py.strip (Py.dedent BASE_SYSTEM_PROMPT_RAW)

/-- Embedding of `build_interview_prep_prompt` (pm_career_coach_app
lines 137–163): returns the pair (system prompt, user content), the
user content being the dedented, stripped f-string with each blank
field replaced by its bracketed placeholder via Python `or`. -/
def build_interview_prep_prompt (background target_role questions : String) :
    String × String :=
  let system_prompt := BASE_SYSTEM_PROMPT ++ interviewSuffix
  let user_content := Py.strip (Py.dedent
    (interviewSeg1 ++ Py.pyOr background interviewPh1 ++
      interviewSeg2 ++ Py.pyOr target_role interviewPh2 ++
      interviewSeg3 ++ Py.pyOr questions interviewPh3 ++ interviewSeg4))
  (system_prompt, user_content)

/-- Embedding of `build_gap_analysis_prompt` (lines 166–192). -/
def build_gap_analysis_prompt (background target_role current_skills : String) :
    String × String :=
  let system_prompt := BASE_SYSTEM_PROMPT ++ gapSuffix
  let user_content := Py.strip (Py.dedent
    (gapSeg1 ++ Py.pyOr background gapPh1 ++
      gapSeg2 ++ Py.pyOr target_role gapPh2 ++
      gapSeg3 ++ Py.pyOr current_skills gapPh3 ++ gapSeg4))
  (system_prompt, user_content)

/-- Embedding of `build_career_positioning_prompt` (lines 195–220). -/
def build_career_positioning_prompt (background target_companies narrative : String) :
    String × String :=
  let system_prompt := BASE_SYSTEM_PROMPT ++ positioningSuffix
  let user_content := Py.strip (Py.dedent
    (positioningSeg1 ++ Py.pyOr background positioningPh1 ++
      positioningSeg2 ++ Py.pyOr target_companies positioningPh2 ++
      positioningSeg3 ++ Py.pyOr narrative positioningPh3 ++ positioningSeg4))
  (system_prompt, user_content)

/-- Rendering of one child age in `build_user_message` (family planner
line 150): `f"{age:.1f}".rstrip("0").rstrip(".")`.  The UI supplies
ages as floats in exact 0.5 steps between 1.0 and 17.0, so ages are
modelled in half-year units: an even number of halves renders as the
integer, an odd one with a ".5" suffix, exactly as the Python
formatting produces on that domain. -/
def ageStr (halves : Nat) : String :=
  if halves % 2 == 0 then toString (halves / 2)
  else toString (halves / 2) ++ ".5"

/-- The `for idx, age in enumerate(child_ages, start=1)` loop of
`build_user_message` (lines 148–151). -/
def agesParts (idx : Nat) : List Nat → List String
  | [] => []
  | a :: rest =>
      ("Child " ++ toString idx ++ ": " ++ ageStr a ++ " years.") ::
        agesParts (idx + 1) rest

/-- Python `sep.join(parts)` (family planner line 159 uses
`" ".join(parts)`). -/
def joinWith (s : String) : List String → String
  | [] => ""
  | a :: as =>
      match as with
      | [] => a
      | _ :: _ => a ++ s ++ joinWith s as

/-- Python `opt or default` for an optional string (line 144:
`specific_child_label or "Child 1"`). -/
def pyOrOpt (o : Option String) (d : String) : String := Py.pyOr (o.getD "") d

/-- Embedding of `build_user_message` (family planner lines 126–159):
every field is interpolated directly into fixed sentence templates
(no bracketed placeholders anywhere), and the parts are joined with
single spaces. -/
def build_user_message (zip_code mode : String) (num_kids : Nat)
    (child_ages : List Nat) (kids_scope : String)
    (specific_child_label : Option String)
    (energy_level location_pref budget : String) (screen_free : Bool) : String :=
  let parts : List String :=
    ["Zip code: " ++ zip_code ++ ".",
     "Mode: " ++ mode ++ "."] ++
    [if kids_scope = "All kids together" then "Kids: All together."
     else "Kids: Specific child (" ++ pyOrOpt specific_child_label "Child 1" ++ ")."] ++
    ["Number of kids: " ++ toString num_kids ++ "."] ++
    agesParts 1 child_ages ++
    ["Energy level: " ++ energy_level ++ ".",
     "Location: " ++ location_pref ++ ".",
     "Budget: " ++ budget ++ ".",
     if screen_free then "Screen-free: Yes." else "Screen-free: No.",
     "Suggest 5 activities."]
  joinWith " " parts

end Apps

namespace Py

/-- Helper used to describe `splitLines` on an append: prepend a chunk
to the first line of an already-split tail. -/
def consToHead (l : List Char) : List (List Char) → List (List Char)
  | [] => [l]
  | h :: t => (l ++ h) :: t

theorem consToHead_cons (l h : List Char) (t : List (List Char)) :
    consToHead l (h :: t) = (l ++ h) :: t := rfl

theorem splitLines_ne_nil (s : List Char) : splitLines s ≠ [] := by
  induction s with
  | nil => simp [splitLines]
  | cons c rest ih =>
      unfold splitLines
      split
      · simp
      · split <;> simp

theorem splitLines_newline (r : List Char) :
    splitLines ('\n' :: r) = [] :: splitLines r := by
  simp [splitLines]

theorem splitLines_chunk {l : List Char} (hl : ∀ c ∈ l, c ≠ '\n')
    (r : List Char) : splitLines (l ++ r) = consToHead l (splitLines r) := by
  induction l with
  | nil =>
      cases h : splitLines r with
      | nil => exact absurd h (splitLines_ne_nil r)
      | cons a t => simp [consToHead, h]
  | cons c l ih =>
      have hc : c ≠ '\n' := hl c (List.mem_cons_self c l)
      have hl' : ∀ x ∈ l, x ≠ '\n' := fun x hx => hl x (List.mem_cons_of_mem c hx)
      rw [List.cons_append]
      simp only [splitLines]
      rw [if_neg hc, ih hl']
      cases h : splitLines r with
      | nil => exact absurd h (splitLines_ne_nil r)
      | cons a t => simp [consToHead, h]

theorem splitLines_nlfree {l : List Char} (hl : ∀ c ∈ l, c ≠ '\n') :
    splitLines l = [l] := by
  have h := splitLines_chunk hl []
  rw [List.append_nil] at h
  rw [h]
  simp [splitLines, consToHead]

theorem commonPrefix_append (m x : List Char) : commonPrefix m (m ++ x) = m := by
  induction m with
  | nil => rfl
  | cons c a ih => simp [commonPrefix, ih]

theorem commonPrefix_self (m : List Char) : commonPrefix m m = m := by
  have h := commonPrefix_append m []
  rwa [List.append_nil] at h

theorem begMatch_append (m x : List Char) : begMatch m (m ++ x) = true := by
  induction m with
  | nil => rfl
  | cons c a ih => simp [begMatch, ih]

theorem stripMargin_append (m x : List Char) : stripMargin m (m ++ x) = x := by
  unfold stripMargin
  rw [if_pos (begMatch_append m x)]
  exact List.drop_left m x

theorem takeWhile_append_of_all {p : Char → Bool} {a : List Char}
    (h : a.all p = true) (b : List Char) :
    (a ++ b).takeWhile p = a ++ b.takeWhile p := by
  induction a with
  | nil => rfl
  | cons c t ih =>
      rw [List.all_cons, Bool.and_eq_true] at h
      rw [List.cons_append, List.takeWhile_cons, if_pos h.1, ih h.2]
      rfl

theorem all_eq_false_of_takeWhile_nil {l : List Char}
    (hne : l ≠ []) (h : l.takeWhile spaceOrTab = []) :
    l.all spaceOrTab = false := by
  cases l with
  | nil => exact absurd rfl hne
  | cons c t =>
      rw [List.takeWhile_cons] at h
      by_cases hc : spaceOrTab c = true
      · rw [if_pos hc] at h
        cases h
      · rw [List.all_cons]
        simp [Bool.eq_false_iff.mpr hc]

theorem blankWs_of_not_all {l : List Char} (h : l.all spaceOrTab = false) :
    blankWs l = l := by
  unfold blankWs
  rw [if_neg]
  simp [h]

theorem lineIndent_of_ne_nil {l : List Char} (h : l ≠ []) :
    lineIndent l = some (l.takeWhile spaceOrTab) := by
  unfold lineIndent
  rw [if_neg]
  simp [List.isEmpty_iff, h]

theorem dropWhile_fix_append {p : Char → Bool} {l : List Char}
    (hfix : List.dropWhile p l = l) (hne : l ≠ []) (r : List Char) :
    List.dropWhile p (l ++ r) = l ++ r := by
  cases l with
  | nil => exact absurd rfl hne
  | cons c t =>
      have hc : p c = false := by
        by_cases hp : p c = true
        · rw [List.dropWhile_cons, if_pos hp] at hfix
          have := (List.dropWhile_sublist (l := t) p).length_le
          rw [hfix] at this
          simp at this
        · exact Bool.eq_false_iff.mpr hp
      rw [List.cons_append, List.dropWhile_cons, if_neg]
      simp [hc]

theorem hasSub_of_begMatch {p s : List Char} (h : begMatch p s = true) :
    hasSub p s = true := by
  cases s with
  | nil => exact h
  | cons d t => simp [hasSub, h]

theorem hasSub_cons {p : List Char} (c : Char) {s : List Char}
    (h : hasSub p s = true) : hasSub p (c :: s) = true := by
  simp [hasSub, h]

theorem hasSub_append_left {p : List Char} (a : List Char) {s : List Char}
    (h : hasSub p s = true) : hasSub p (a ++ s) = true := by
  induction a with
  | nil => exact h
  | cons c t ih => exact hasSub_cons c ih

theorem hasSub_here (p r : List Char) : hasSub p (p ++ r) = true :=
  hasSub_of_begMatch (begMatch_append p r)

theorem joinLines_cons_cons (l a : List Char) (ls : List (List Char)) :
    joinLines (l :: a :: ls) = l ++ '\n' :: joinLines (a :: ls) := rfl

theorem joinLines_single (l : List Char) : joinLines [l] = l := rfl

theorem stripTrail {d : List Char} (hd : List.dropWhile isSpace d.reverse = d.reverse)
    (hne : d ≠ []) (G : List Char) :
    ((G ++ (d ++ ['\n'])).reverse.dropWhile isSpace).reverse = G ++ d := by
  rw [List.reverse_append, List.reverse_append]
  have h1 : (['\n'] : List Char).reverse = ['\n'] := rfl
  rw [h1]
  have h2 : (['\n'] ++ d.reverse) ++ G.reverse = '\n' :: (d.reverse ++ G.reverse) := by
    simp
  rw [h2, List.dropWhile_cons, if_pos (by rfl)]
  have hrev : d.reverse ≠ [] := by
    simp [hne]
  rw [dropWhile_fix_append hd hrev]
  rw [List.reverse_append, List.reverse_reverse, List.reverse_reverse]

end Py

namespace Apps

/-- Eight spaces: the common indentation of the coach templates as
written inside their Python f-strings. -/
def sp8 : List Char := "        ".data

/-- Shape of a fixed template line core (the text after the eight-space
indent): no newline, no leading space or tab, nonempty. -/
abbrev lineOk (l : List Char) : Prop :=
  (∀ c ∈ l, c ≠ '\n') ∧ l.takeWhile Py.spaceOrTab = [] ∧ l ≠ []

/-- Shape of an interpolated field value for which the dedent
computation stays regular: no newline, and not made of spaces/tabs
only (so its line is not blanked). -/
abbrev fieldData (X : List Char) : Prop :=
  (∀ c ∈ X, c ≠ '\n') ∧ X.all Py.spaceOrTab = false

/-- Shape of a user-supplied field: it is either blank (then the
builder substitutes the placeholder) or a single-line value with some
non-whitespace character. -/
abbrev fieldOk (f : String) : Prop :=
  (∀ c ∈ f.data, c ≠ '\n') ∧ (f = "" ∨ f.data.all Py.spaceOrTab = false)

/-- Common shape of the three career-coach user-content templates: a
leading newline, three header lines each followed by an interpolated
line, a `Please:` header, four bullet lines, and a trailing
eight-space line, all indented by eight spaces. -/
def coachTemplate (c1 c2 c3 cP d1 d2 d3 d4 X Y Z : List Char) : List Char :=
  '\n' :: sp8 ++ c1 ++ '\n' :: sp8 ++ X ++
    '\n' :: '\n' :: sp8 ++ c2 ++ '\n' :: sp8 ++ Y ++
    '\n' :: '\n' :: sp8 ++ c3 ++ '\n' :: sp8 ++ Z ++
    '\n' :: '\n' :: sp8 ++ cP ++
    '\n' :: sp8 ++ d1 ++ '\n' :: sp8 ++ d2 ++ '\n' :: sp8 ++ d3 ++ '\n' :: sp8 ++ d4 ++
    '\n' :: sp8

theorem blankWs_line {l : List Char} (h : lineOk l) :
    Py.blankWs (sp8 ++ l) = sp8 ++ l := by
  apply Py.blankWs_of_not_all
  rw [List.all_append, Py.all_eq_false_of_takeWhile_nil h.2.2 h.2.1]
  simp

theorem blankWs_field {X : List Char} (h : fieldData X) :
    Py.blankWs (sp8 ++ X) = sp8 ++ X := by
  apply Py.blankWs_of_not_all
  rw [List.all_append, h.2]
  simp

theorem lineIndent_line {l : List Char} (h : lineOk l) :
    Py.lineIndent (sp8 ++ l) = some sp8 := by
  rw [Py.lineIndent_of_ne_nil (List.append_ne_nil_of_left_ne_nil (by decide) l)]
  rw [Py.takeWhile_append_of_all (by decide) l, h.2.1, List.append_nil]

theorem lineIndent_field (X : List Char) :
    Py.lineIndent (sp8 ++ X) = some (sp8 ++ X.takeWhile Py.spaceOrTab) := by
  rw [Py.lineIndent_of_ne_nil (List.append_ne_nil_of_left_ne_nil (by decide) X)]
  rw [Py.takeWhile_append_of_all (by decide) X]

end Apps
namespace Apps

/-- Normal form of `dedent(...).strip()` on the common coach template
shape: with single-line, not-all-whitespace field values, the margin is
exactly the eight-space indent, every line loses it, and the strip
removes the boundary newlines, leaving the fixed lines and the field
values spliced verbatim. -/
theorem coachTemplate_normal
    (c1 c2 c3 cP d1 d2 d3 d4 : List Char)
    (h1 : lineOk c1) (h2 : lineOk c2) (h3 : lineOk c3) (hP : lineOk cP)
    (g1 : lineOk d1) (g2 : lineOk d2) (g3 : lineOk d3) (g4 : lineOk d4)
    (hc1 : List.dropWhile Py.isSpace c1 = c1)
    (hd4 : List.dropWhile Py.isSpace d4.reverse = d4.reverse)
    {X Y Z : List Char} (hX : fieldData X) (hY : fieldData Y) (hZ : fieldData Z) :
    Py.stripL (Py.dedentL (coachTemplate c1 c2 c3 cP d1 d2 d3 d4 X Y Z)) =
      c1 ++ '\n' :: (X ++ '\n' :: '\n' :: (c2 ++ '\n' :: (Y ++ '\n' :: '\n' :: (c3 ++ '\n' :: (Z ++ '\n' :: '\n' :: (cP ++ '\n' :: (d1 ++ '\n' :: (d2 ++ '\n' :: (d3 ++ '\n' :: d4))))))))) := by
  have hsp8nl : ∀ c ∈ sp8, c ≠ '\n' := by decide
  have hsplit : Py.splitLines (coachTemplate c1 c2 c3 cP d1 d2 d3 d4 X Y Z) =
      [[], sp8 ++ c1, sp8 ++ X, [], sp8 ++ c2, sp8 ++ Y, [], sp8 ++ c3, sp8 ++ Z,
        [], sp8 ++ cP, sp8 ++ d1, sp8 ++ d2, sp8 ++ d3, sp8 ++ d4, sp8] := by
    simp only [coachTemplate, List.cons_append, List.append_assoc,
      Py.splitLines_newline,
      Py.splitLines_chunk hsp8nl, Py.splitLines_chunk h1.1,
      Py.splitLines_chunk h2.1, Py.splitLines_chunk h3.1,
      Py.splitLines_chunk hP.1, Py.splitLines_chunk g1.1,
      Py.splitLines_chunk g2.1, Py.splitLines_chunk g3.1,
      Py.splitLines_chunk g4.1, Py.splitLines_chunk hX.1,
      Py.splitLines_chunk hY.1, Py.splitLines_chunk hZ.1,
      Py.splitLines_nlfree hsp8nl, Py.consToHead_cons, List.append_nil]
  have bnil : Py.blankWs ([] : List Char) = [] := rfl
  have bsp8 : Py.blankWs sp8 = [] := by decide
  have inil : Py.lineIndent ([] : List Char) = none := rfl
  have isp8 : Py.lineIndent sp8 = some sp8 := by decide
  have smnil : Py.stripMargin sp8 [] = [] := by decide
  have hded : Py.dedentL (coachTemplate c1 c2 c3 cP d1 d2 d3 d4 X Y Z) =
      '\n' :: (c1 ++ '\n' :: (X ++ '\n' :: '\n' :: (c2 ++ '\n' :: (Y ++ '\n' :: '\n' :: (c3 ++ '\n' :: (Z ++ '\n' :: '\n' :: (cP ++ '\n' :: (d1 ++ '\n' :: (d2 ++ '\n' :: (d3 ++ '\n' :: (d4 ++ ['\n']))))))))))) := by
    simp only [Py.dedentL]
    rw [hsplit]
    simp only [List.map_cons, List.map_nil, bnil, bsp8,
      blankWs_line h1, blankWs_line h2, blankWs_line h3, blankWs_line hP,
      blankWs_line g1, blankWs_line g2, blankWs_line g3, blankWs_line g4,
      blankWs_field hX, blankWs_field hY, blankWs_field hZ]
    simp only [List.filterMap_cons, List.filterMap_nil, inil, isp8,
      lineIndent_line h1, lineIndent_line h2, lineIndent_line h3,
      lineIndent_line hP, lineIndent_line g1, lineIndent_line g2,
      lineIndent_line g3, lineIndent_line g4,
      lineIndent_field X, lineIndent_field Y, lineIndent_field Z]
    simp only [List.foldl_cons, List.foldl_nil,
      Py.commonPrefix_append, Py.commonPrefix_self]
    simp only [List.map_cons, List.map_nil, Py.stripMargin_append, smnil]
    simp only [Py.joinLines_cons_cons, Py.joinLines_single, List.nil_append]
  rw [hded]
  simp only [Py.stripL]
  rw [List.dropWhile_cons, if_pos (show Py.isSpace '\n' = true by decide)]
  rw [Py.dropWhile_fix_append hc1 h1.2.2]
  have hshape : c1 ++ '\n' :: (X ++ '\n' :: '\n' :: (c2 ++ '\n' :: (Y ++ '\n' :: '\n' :: (c3 ++ '\n' :: (Z ++ '\n' :: '\n' :: (cP ++ '\n' :: (d1 ++ '\n' :: (d2 ++ '\n' :: (d3 ++ '\n' :: (d4 ++ ['\n'])))))))))) =
      (c1 ++ '\n' :: (X ++ '\n' :: '\n' :: (c2 ++ '\n' :: (Y ++ '\n' :: '\n' :: (c3 ++ '\n' :: (Z ++ '\n' :: '\n' :: (cP ++ '\n' :: (d1 ++ '\n' :: (d2 ++ '\n' :: (d3 ++ ['\n'])))))))))) ++ (d4 ++ ['\n']) := by
    simp [List.append_assoc]
  rw [hshape, Py.stripTrail hd4 g4.2.2]
  simp [List.append_assoc]

end Apps
namespace Apps

/-- Core text of the shared `Please:` header line of all three coach templates. -/
def cPlease : List Char := "Please:".data

/-- Core text (after the indent) of a fixed line of the interview template. -/
def iC1 : List Char := "Context about my background:".data

/-- Core text (after the indent) of a fixed line of the interview template. -/
def iC2 : List Char := "Target role / company / level:".data

/-- Core text (after the indent) of a fixed line of the interview template. -/
def iC3 : List Char := "Interview prep questions or areas I want help with:".data

/-- Core text (after the indent) of a fixed line of the interview template. -/
def iD1 : List Char := "- Identify 2–4 core themes I should lean on in PM interviews.".data

/-- Core text (after the indent) of a fixed line of the interview template. -/
def iD2 : List Char := "- Suggest structured answers (using frameworks like STAR or problem → solution → impact) for my key stories.".data

/-- Core text (after the indent) of a fixed line of the interview template. -/
def iD3 : List Char := "- Propose 3–5 likely PM interview questions based on my target role and context.".data

/-- Core text (after the indent) of a fixed line of the interview template. -/
def iD4 : List Char := "- Give bullet-point guidance on how to improve my delivery and depth in answers.".data

/-- Core text (after the indent) of a fixed line of the gap template. -/
def gC1 : List Char := "Current background and experience:".data

/-- Core text (after the indent) of a fixed line of the gap template. -/
def gC2 : List Char := "Target PM role(s), level, and timeline:".data

/-- Core text (after the indent) of a fixed line of the gap template. -/
def gC3 : List Char := "Current PM-relevant skills, projects, or experiences:".data

/-- Core text (after the indent) of a fixed line of the gap template. -/
def gD1 : List Char := "- Map my current profile against expectations for my target PM roles.".data

/-- Core text (after the indent) of a fixed line of the gap template. -/
def gD2 : List Char := "- Identify concrete skill, experience, and signaling gaps.".data

/-- Core text (after the indent) of a fixed line of the gap template. -/
def gD3 : List Char := "- Propose a 30–90 day development plan with specific projects, habits, or deliverables.".data

/-- Core text (after the indent) of a fixed line of the gap template. -/
def gD4 : List Char := "- Recommend how to demonstrate progress clearly on my resume, LinkedIn, and in conversations.".data

/-- Core text (after the indent) of a fixed line of the positioning template. -/
def pC1 : List Char := "My background (education, past roles, domains, key skills):".data

/-- Core text (after the indent) of a fixed line of the positioning template. -/
def pC2 : List Char := "Target companies / industries / product areas:".data

/-- Core text (after the indent) of a fixed line of the positioning template. -/
def pC3 : List Char := "My current career story or positioning (if any):".data

/-- Core text (after the indent) of a fixed line of the positioning template. -/
def pD1 : List Char := "- Craft 1–2 concise PM positioning statements I can use in intros and summaries.".data

/-- Core text (after the indent) of a fixed line of the positioning template. -/
def pD2 : List Char := "- Propose a clear career narrative that connects my past experience to PM roles.".data

/-- Core text (after the indent) of a fixed line of the positioning template. -/
def pD3 : List Char := "- Suggest how to tailor this narrative for different types of companies (big tech, startup, non-tech).".data

/-- Core text (after the indent) of a fixed line of the positioning template. -/
def pD4 : List Char := "- Provide 3–5 concrete lines I can reuse on my resume / LinkedIn headline / About section.".data

end Apps
namespace Py

/-- Data view of `strip`. -/
theorem strip_data (s : String) : (strip s).data = stripL s.data := rfl

/-- Data view of `dedent`. -/
theorem dedent_data (s : String) : (dedent s).data = dedentL s.data := rfl

end Py

namespace Apps

theorem fieldData_pyOr {f d : String} (hd : fieldData d.data) (hf : fieldOk f) :
    fieldData (Py.pyOr f d).data := by
  unfold Py.pyOr
  split
  · exact hd
  · next hne => exact ⟨hf.1, hf.2.resolve_left hne⟩

theorem hasSub_slot1 (c1 X r : List Char) :
    Py.hasSub X (c1 ++ '\n' :: (X ++ r)) = true := by
  apply Py.hasSub_append_left
  apply Py.hasSub_cons
  exact Py.hasSub_here X r

theorem hasSub_slot2 (c1 X c2 Y r : List Char) :
    Py.hasSub Y (c1 ++ '\n' :: (X ++ '\n' :: '\n' :: (c2 ++ '\n' :: (Y ++ r)))) = true := by
  apply Py.hasSub_append_left
  apply Py.hasSub_cons
  apply Py.hasSub_append_left
  apply Py.hasSub_cons
  apply Py.hasSub_cons
  apply Py.hasSub_append_left
  apply Py.hasSub_cons
  exact Py.hasSub_here Y r

theorem hasSub_slot3 (c1 X c2 Y c3 Z r : List Char) :
    Py.hasSub Z (c1 ++ '\n' :: (X ++ '\n' :: '\n' :: (c2 ++ '\n' :: (Y ++
      '\n' :: '\n' :: (c3 ++ '\n' :: (Z ++ r)))))) = true := by
  apply Py.hasSub_append_left
  apply Py.hasSub_cons
  apply Py.hasSub_append_left
  apply Py.hasSub_cons
  apply Py.hasSub_cons
  apply Py.hasSub_append_left
  apply Py.hasSub_cons
  apply Py.hasSub_append_left
  apply Py.hasSub_cons
  apply Py.hasSub_cons
  apply Py.hasSub_append_left
  apply Py.hasSub_cons
  exact Py.hasSub_here Z r

theorem joinWith_head_data (s a : String) (l : List String) :
    ∃ r, (joinWith s (a :: l)).data = a.data ++ r := by
  cases l with
  | nil => exact ⟨[], by simp [joinWith]⟩
  | cons b bs =>
      refine ⟨(s ++ joinWith s (b :: bs)).data, ?_⟩
      show (a ++ s ++ joinWith s (b :: bs)).data = _
      simp [String.data_append]


set_option maxRecDepth 8192 in
/-- Decomposition of the interview template into the common coach shape. -/
theorem interview_template_data (X Y Z : List Char) :
    interviewSeg1.data ++ (X ++ (interviewSeg2.data ++ (Y ++ (interviewSeg3.data ++ (Z ++ interviewSeg4.data))))) =
      coachTemplate iC1 iC2 iC3 cPlease iD1 iD2 iD3 iD4 X Y Z := by
  have e1 : interviewSeg1.data = '\n' :: (sp8 ++ (iC1 ++ ('\n' :: sp8))) := by decide
  have e2 : interviewSeg2.data = '\n' :: '\n' :: (sp8 ++ (iC2 ++ ('\n' :: sp8))) := by decide
  have e3 : interviewSeg3.data = '\n' :: '\n' :: (sp8 ++ (iC3 ++ ('\n' :: sp8))) := by decide
  have e4 : interviewSeg4.data = '\n' :: '\n' :: (sp8 ++ (cPlease ++ ('\n' :: (sp8 ++ (iD1 ++ ('\n' :: (sp8 ++ (iD2 ++ ('\n' :: (sp8 ++ (iD3 ++ ('\n' :: (sp8 ++ (iD4 ++ ('\n' :: sp8))))))))))))))) := by decide
  rw [e1, e2, e3, e4]
  simp [coachTemplate, List.append_assoc]

/-- Normal form of the interview builder user content for well-shaped
fields: the fixed template lines with the field-or-placeholder values
spliced verbatim. -/
theorem interview_user_data (a b c : String)
    (ha : fieldOk a) (hb : fieldOk b) (hc : fieldOk c) :
    (build_interview_prep_prompt a b c).2.data =
      iC1 ++ '\n' :: ((Py.pyOr a interviewPh1).data ++ '\n' :: '\n' :: (iC2 ++ '\n' :: ((Py.pyOr b interviewPh2).data ++ '\n' :: '\n' :: (iC3 ++ '\n' :: ((Py.pyOr c interviewPh3).data ++ '\n' :: '\n' :: (cPlease ++ '\n' :: (iD1 ++ '\n' :: (iD2 ++ '\n' :: (iD3 ++ '\n' :: iD4))))))))) := by
  have hdata : (build_interview_prep_prompt a b c).2.data =
      Py.stripL (Py.dedentL (interviewSeg1.data ++ ((Py.pyOr a interviewPh1).data ++
        (interviewSeg2.data ++ ((Py.pyOr b interviewPh2).data ++
        (interviewSeg3.data ++ ((Py.pyOr c interviewPh3).data ++ interviewSeg4.data))))))) := by
    simp only [build_interview_prep_prompt, Py.strip_data, Py.dedent_data, String.data_append,
      List.append_assoc]
  rw [hdata, interview_template_data]
  exact coachTemplate_normal iC1 iC2 iC3 cPlease iD1 iD2 iD3 iD4
    (by decide) (by decide) (by decide) (by decide)
    (by decide) (by decide) (by decide) (by decide)
    (by decide) (by decide)
    (fieldData_pyOr (by decide) ha) (fieldData_pyOr (by decide) hb)
    (fieldData_pyOr (by decide) hc)

set_option maxRecDepth 8192 in
/-- Decomposition of the gap template into the common coach shape. -/
theorem gap_template_data (X Y Z : List Char) :
    gapSeg1.data ++ (X ++ (gapSeg2.data ++ (Y ++ (gapSeg3.data ++ (Z ++ gapSeg4.data))))) =
      coachTemplate gC1 gC2 gC3 cPlease gD1 gD2 gD3 gD4 X Y Z := by
  have e1 : gapSeg1.data = '\n' :: (sp8 ++ (gC1 ++ ('\n' :: sp8))) := by decide
  have e2 : gapSeg2.data = '\n' :: '\n' :: (sp8 ++ (gC2 ++ ('\n' :: sp8))) := by decide
  have e3 : gapSeg3.data = '\n' :: '\n' :: (sp8 ++ (gC3 ++ ('\n' :: sp8))) := by decide
  have e4 : gapSeg4.data = '\n' :: '\n' :: (sp8 ++ (cPlease ++ ('\n' :: (sp8 ++ (gD1 ++ ('\n' :: (sp8 ++ (gD2 ++ ('\n' :: (sp8 ++ (gD3 ++ ('\n' :: (sp8 ++ (gD4 ++ ('\n' :: sp8))))))))))))))) := by decide
  rw [e1, e2, e3, e4]
  simp [coachTemplate, List.append_assoc]

/-- Normal form of the gap builder user content for well-shaped
fields: the fixed template lines with the field-or-placeholder values
spliced verbatim. -/
theorem gap_user_data (a b c : String)
    (ha : fieldOk a) (hb : fieldOk b) (hc : fieldOk c) :
    (build_gap_analysis_prompt a b c).2.data =
      gC1 ++ '\n' :: ((Py.pyOr a gapPh1).data ++ '\n' :: '\n' :: (gC2 ++ '\n' :: ((Py.pyOr b gapPh2).data ++ '\n' :: '\n' :: (gC3 ++ '\n' :: ((Py.pyOr c gapPh3).data ++ '\n' :: '\n' :: (cPlease ++ '\n' :: (gD1 ++ '\n' :: (gD2 ++ '\n' :: (gD3 ++ '\n' :: gD4))))))))) := by
  have hdata : (build_gap_analysis_prompt a b c).2.data =
      Py.stripL (Py.dedentL (gapSeg1.data ++ ((Py.pyOr a gapPh1).data ++
        (gapSeg2.data ++ ((Py.pyOr b gapPh2).data ++
        (gapSeg3.data ++ ((Py.pyOr c gapPh3).data ++ gapSeg4.data))))))) := by
    simp only [build_gap_analysis_prompt, Py.strip_data, Py.dedent_data, String.data_append,
      List.append_assoc]
  rw [hdata, gap_template_data]
  exact coachTemplate_normal gC1 gC2 gC3 cPlease gD1 gD2 gD3 gD4
    (by decide) (by decide) (by decide) (by decide)
    (by decide) (by decide) (by decide) (by decide)
    (by decide) (by decide)
    (fieldData_pyOr (by decide) ha) (fieldData_pyOr (by decide) hb)
    (fieldData_pyOr (by decide) hc)

set_option maxRecDepth 8192 in
/-- Decomposition of the positioning template into the common coach shape. -/
theorem positioning_template_data (X Y Z : List Char) :
    positioningSeg1.data ++ (X ++ (positioningSeg2.data ++ (Y ++ (positioningSeg3.data ++ (Z ++ positioningSeg4.data))))) =
      coachTemplate pC1 pC2 pC3 cPlease pD1 pD2 pD3 pD4 X Y Z := by
  have e1 : positioningSeg1.data = '\n' :: (sp8 ++ (pC1 ++ ('\n' :: sp8))) := by decide
  have e2 : positioningSeg2.data = '\n' :: '\n' :: (sp8 ++ (pC2 ++ ('\n' :: sp8))) := by decide
  have e3 : positioningSeg3.data = '\n' :: '\n' :: (sp8 ++ (pC3 ++ ('\n' :: sp8))) := by decide
  have e4 : positioningSeg4.data = '\n' :: '\n' :: (sp8 ++ (cPlease ++ ('\n' :: (sp8 ++ (pD1 ++ ('\n' :: (sp8 ++ (pD2 ++ ('\n' :: (sp8 ++ (pD3 ++ ('\n' :: (sp8 ++ (pD4 ++ ('\n' :: sp8))))))))))))))) := by decide
  rw [e1, e2, e3, e4]
  simp [coachTemplate, List.append_assoc]

/-- Normal form of the positioning builder user content for well-shaped
fields: the fixed template lines with the field-or-placeholder values
spliced verbatim. -/
theorem positioning_user_data (a b c : String)
    (ha : fieldOk a) (hb : fieldOk b) (hc : fieldOk c) :
    (build_career_positioning_prompt a b c).2.data =
      pC1 ++ '\n' :: ((Py.pyOr a positioningPh1).data ++ '\n' :: '\n' :: (pC2 ++ '\n' :: ((Py.pyOr b positioningPh2).data ++ '\n' :: '\n' :: (pC3 ++ '\n' :: ((Py.pyOr c positioningPh3).data ++ '\n' :: '\n' :: (cPlease ++ '\n' :: (pD1 ++ '\n' :: (pD2 ++ '\n' :: (pD3 ++ '\n' :: pD4))))))))) := by
  have hdata : (build_career_positioning_prompt a b c).2.data =
      Py.stripL (Py.dedentL (positioningSeg1.data ++ ((Py.pyOr a positioningPh1).data ++
        (positioningSeg2.data ++ ((Py.pyOr b positioningPh2).data ++
        (positioningSeg3.data ++ ((Py.pyOr c positioningPh3).data ++ positioningSeg4.data))))))) := by
    simp only [build_career_positioning_prompt, Py.strip_data, Py.dedent_data, String.data_append,
      List.append_assoc]
  rw [hdata, positioning_template_data]
  exact coachTemplate_normal pC1 pC2 pC3 cPlease pD1 pD2 pD3 pD4
    (by decide) (by decide) (by decide) (by decide)
    (by decide) (by decide) (by decide) (by decide)
    (by decide) (by decide)
    (fieldData_pyOr (by decide) ha) (fieldData_pyOr (by decide) hb)
    (fieldData_pyOr (by decide) hc)

end Apps

namespace Apps

/-- Substring occurrence of the head part in a `" ".join`. -/
theorem hasSubStr_joinWith_head (s a : String) (l : List String) :
    Py.hasSubStr a (joinWith s (a :: l)) = true := by
  obtain ⟨r, hr⟩ := joinWith_head_data s a l
  unfold Py.hasSubStr
  rw [hr]
  exact Py.hasSub_here a.data r

set_option maxRecDepth 8192 in
/-- C9 (counterexample): the family planner's user-message builder does
not render a bracketed placeholder for a blank field.  With a blank zip
code it produces "Zip code: ." — an empty interpolation — and its
output contains no bracket character at all, refuting the claim that
every builder substitutes a designated bracketed placeholder phrase for
every blank field. -/
theorem family_builder_blank_field_no_placeholder :
    build_user_message "" "Weekend" 1 [16] "All kids together" none
        "Low (calm day)" "At home" "Free" false =
      "Zip code: . Mode: Weekend. Kids: All together. Number of kids: 1. Child 1: 8 years. Energy level: Low (calm day). Location: At home. Budget: Free. Screen-free: No. Suggest 5 activities." ∧
      (∀ ch ∈ (build_user_message "" "Weekend" 1 [16] "All kids together" none
        "Low (calm day)" "At home" "Free" false).data, ch ≠ '[') := by
  exact ⟨by decide, by decide⟩

/-- C9 (amended): every prompt builder is a pure function of its
inputs, so identical field inputs yield identical output strings.  The
career coach's three template builders substitute a designated
bracketed placeholder phrase for each field left blank: for every
single-line, not-all-whitespace-or-blank field combination, the built
user message contains the field text verbatim, or its placeholder when
the field is blank.  The family planner's builder, by contrast, uses no
placeholders: it interpolates each field directly into fixed sentence
templates (so a blank field yields an empty interpolation, as the
counterexample shows). -/
theorem builders_placeholder_rendering (bg tr qs : String)
    (hbg : fieldOk bg) (htr : fieldOk tr) (hqs : fieldOk qs) :
    (Py.hasSubStr (Py.pyOr bg interviewPh1)
        (build_interview_prep_prompt bg tr qs).2 = true ∧
      Py.hasSubStr (Py.pyOr tr interviewPh2)
        (build_interview_prep_prompt bg tr qs).2 = true ∧
      Py.hasSubStr (Py.pyOr qs interviewPh3)
        (build_interview_prep_prompt bg tr qs).2 = true) ∧
    (Py.hasSubStr (Py.pyOr bg gapPh1)
        (build_gap_analysis_prompt bg tr qs).2 = true ∧
      Py.hasSubStr (Py.pyOr tr gapPh2)
        (build_gap_analysis_prompt bg tr qs).2 = true ∧
      Py.hasSubStr (Py.pyOr qs gapPh3)
        (build_gap_analysis_prompt bg tr qs).2 = true) ∧
    (Py.hasSubStr (Py.pyOr bg positioningPh1)
        (build_career_positioning_prompt bg tr qs).2 = true ∧
      Py.hasSubStr (Py.pyOr tr positioningPh2)
        (build_career_positioning_prompt bg tr qs).2 = true ∧
      Py.hasSubStr (Py.pyOr qs positioningPh3)
        (build_career_positioning_prompt bg tr qs).2 = true) ∧
    (∀ (zip_code mode : String) (num_kids : Nat) (child_ages : List Nat)
        (kids_scope : String) (specific_child_label : Option String)
        (energy_level location_pref budget : String) (screen_free : Bool),
      Py.hasSubStr ("Zip code: " ++ zip_code ++ ".")
        (build_user_message zip_code mode num_kids child_ages kids_scope
          specific_child_label energy_level location_pref budget screen_free) =
        true) := by
  refine ⟨⟨?_, ?_, ?_⟩, ⟨?_, ?_, ?_⟩, ⟨?_, ?_, ?_⟩, ?_⟩
  · unfold Py.hasSubStr
    rw [interview_user_data bg tr qs hbg htr hqs]
    exact hasSub_slot1 _ _ _
  · unfold Py.hasSubStr
    rw [interview_user_data bg tr qs hbg htr hqs]
    exact hasSub_slot2 _ _ _ _ _
  · unfold Py.hasSubStr
    rw [interview_user_data bg tr qs hbg htr hqs]
    exact hasSub_slot3 _ _ _ _ _ _ _
  · unfold Py.hasSubStr
    rw [gap_user_data bg tr qs hbg htr hqs]
    exact hasSub_slot1 _ _ _
  · unfold Py.hasSubStr
    rw [gap_user_data bg tr qs hbg htr hqs]
    exact hasSub_slot2 _ _ _ _ _
  · unfold Py.hasSubStr
    rw [gap_user_data bg tr qs hbg htr hqs]
    exact hasSub_slot3 _ _ _ _ _ _ _
  · unfold Py.hasSubStr
    rw [positioning_user_data bg tr qs hbg htr hqs]
    exact hasSub_slot1 _ _ _
  · unfold Py.hasSubStr
    rw [positioning_user_data bg tr qs hbg htr hqs]
    exact hasSub_slot2 _ _ _ _ _
  · unfold Py.hasSubStr
    rw [positioning_user_data bg tr qs hbg htr hqs]
    exact hasSub_slot3 _ _ _ _ _ _ _
  · intro zip_code mode num_kids child_ages kids_scope specific_child_label
      energy_level location_pref budget screen_free
    exact hasSubStr_joinWith_head " " _ _

/-- C9 witness: with a blank background, target role "x", and blank
questions, the interview-prep user message contains the background and
questions placeholders and the literal "x". -/
theorem builders_placeholder_rendering_witness :
    Py.hasSubStr (Py.pyOr "" interviewPh1)
        (build_interview_prep_prompt "" "x" "").2 = true ∧
      Py.hasSubStr (Py.pyOr "x" interviewPh2)
        (build_interview_prep_prompt "" "x" "").2 = true ∧
      Py.hasSubStr (Py.pyOr "" interviewPh3)
        (build_interview_prep_prompt "" "x" "").2 = true :=
  (builders_placeholder_rendering "" "x" ""
    (by decide) (by decide) (by decide)).1

end Apps
